import Mathlib

/-!
Verification of the srlife receiver data model (`srlife/receiver.py`) and of the
damage-model interface exercised by `test/test_ceramic_damage_CARES_cyclic.py`.

The Python classes are shallowly embedded: numpy arrays become a `shape` list of
natural numbers together with a flat list of real entries, raising becomes an
`Except` result, and mutating methods become functions from the old object to
the new object (paired with the possible exception when the method can raise
after partially observing state).
-/

open Real

/-- Python exception kinds raised by the code under verification. -/
inductive PyErr where
  | valueError : PyErr
  | nameError : PyErr
  deriving DecidableEq, Repr

/-- A numpy array: a shape tuple and the flat (row-major) data.
A zero-dimensional array (numpy scalar) has `shape = []`. -/
structure NpArray where
  shape : List ℕ
  data : List ℝ

/-- Leading dimension `shape[0]` of an array (0 for a zero-dimensional array). -/
def NpArray.firstDim (a : NpArray) : ℕ := a.shape.headD 0

/-- Python dict assignment `d[k] = v` on an association list. -/
def dictUpsert (k : String) (v : NpArray) (d : List (String × NpArray)) :
    List (String × NpArray) :=
  (k, v) :: d.filter (fun p => p.1 ≠ k)

/-- Python dict lookup `d[k]`. -/
def dictLookup (k : String) (d : List (String × NpArray)) : Option NpArray :=
  (d.find? (fun p => p.1 = k)).map (·.2)

/-- The tube abstraction selector: the `abstraction` attribute is one of the
strings "3D" (the constructor default), "2D" (set by `make_2D`) or
"1D" (set by `make_1D`). -/
inductive Abstraction where
  | oneD : Abstraction
  | twoD : Abstraction
  | threeD : Abstraction
  deriving DecidableEq, Repr

/-- State of a `Tube` object (`receiver.py`, class `Tube`): geometry `r`
(outer radius), `t` (thickness), `h` (height), grid counts `nr`, `nt`, `nz`,
the abstraction tag, the stored time samples and the three result
dictionaries. -/
structure Tube where
  r : ℝ
  t : ℝ
  h : ℝ
  nr : ℕ
  nt : ℕ
  nz : ℕ
  abstraction : Abstraction
  times : List ℝ
  results : List (String × NpArray)
  quadrature_results : List (String × NpArray)
  axial_results : List (String × NpArray)

/-- `Tube.__init__`: geometry and counts from the arguments, abstraction "3D",
`times = []` and empty result dictionaries. -/
def Tube.init (r t h : ℝ) (nr nt nz : ℕ) : Tube :=
  ⟨r, t, h, nr, nt, nz, Abstraction.threeD, [], [], [], []⟩

/-- `Tube.ntime`: the number of stored time samples. -/
def Tube.ntime (tube : Tube) : ℕ := tube.times.length

/-- `Tube.set_times`: raise ValueError if any stored results array has leading
dimension different from `len(times)`; otherwise store the new times.  The
returned pair is (state after the call, exception if one was raised): the loop
only reads, so on an exception the state is the unchanged input. -/
def Tube.set_times (tube : Tube) (times : List ℝ) : Tube × Option PyErr :=
  if tube.results.any (fun p => p.2.firstDim ≠ times.length) then
    (tube, some PyErr.valueError)
  else
    ({ tube with times := times }, none)

/-- The shape `_check_rdim` requires of a node results array:
`(ntime, nr, nt, nz)` for "3D", `(ntime, nr, nt)` for "2D",
`(ntime, nr)` for "1D". -/
def Tube.contractShape (tube : Tube) : List ℕ :=
  match tube.abstraction with
  | Abstraction.threeD => [tube.ntime, tube.nr, tube.nt, tube.nz]
  | Abstraction.twoD => [tube.ntime, tube.nr, tube.nt]
  | Abstraction.oneD => [tube.ntime, tube.nr]

/-- `Tube._check_rdim`: ValueError unless the shape matches the contract shape
for the current abstraction. -/
def Tube.check_rdim (tube : Tube) (shape : List ℕ) : Except PyErr Unit :=
  if shape = tube.contractShape then Except.ok () else Except.error PyErr.valueError

/-- `Tube.add_results`: check the shape with `_check_rdim`, then store the data
under `name` in `results` (the memmap set-up with `page=False` allocates a
zero array of the same shape and copies `data` into it, so the stored value is
`data`). -/
def Tube.add_results (tube : Tube) (name : String) (data : NpArray) :
    Except PyErr Tube :=
  match tube.check_rdim data.shape with
  | Except.error e => Except.error e
  | Except.ok _ =>
      Except.ok { tube with results := dictUpsert name data tube.results }

/-- `Tube.add_quadrature_results`: raise ValueError unless the leading dimension
is `ntime`, then store under `name` in `quadrature_results`. -/
def Tube.add_quadrature_results (tube : Tube) (name : String) (data : NpArray) :
    Except PyErr Tube :=
  if data.firstDim ≠ tube.ntime then Except.error PyErr.valueError
  else
    Except.ok
      { tube with quadrature_results := dictUpsert name data tube.quadrature_results }

/-- `Tube.add_axial_results`: raise ValueError unless the shape is
`(ntime, nz)`, then store under `name` in `axial_results`. -/
def Tube.add_axial_results (tube : Tube) (name : String) (data : NpArray) :
    Except PyErr Tube :=
  if data.shape ≠ [tube.ntime, tube.nz] then Except.error PyErr.valueError
  else
    Except.ok { tube with axial_results := dictUpsert name data tube.axial_results }

/-- The aggregation step of the damage tests
(`test_ceramic_damage_CARES_cyclic.py`, e.g. `TestPIAModel.test_definition`):
`R_total = np.exp(np.sum(log_reliability))` and `Pf = 1 - R_total`. -/
noncomputable def aggregate (log_reliability : List ℝ) : ℝ × ℝ :=
  (Real.exp log_reliability.sum, 1 - Real.exp log_reliability.sum)

/-- C8: aggregating a log-reliability array of zeros, of any length, yields
total reliability `R_total = 1` and probability of failure `Pf = 0`. -/
theorem aggregate_zeros_eq_one_zero (n : ℕ) :
    aggregate (List.replicate n 0) = (1, 0) := by
  simp [aggregate, List.sum_replicate]

theorem add_results_spec_ok (tube : Tube) (name : String) (data : NpArray)
    (h : data.shape = tube.contractShape) :
    tube.add_results name data =
      Except.ok { tube with results := dictUpsert name data tube.results } := by
  simp [Tube.add_results, Tube.check_rdim, h]

theorem add_results_spec_err (tube : Tube) (name : String) (data : NpArray)
    (h : data.shape ≠ tube.contractShape) :
    tube.add_results name data = Except.error PyErr.valueError := by
  simp [Tube.add_results, Tube.check_rdim, h]

theorem set_times_spec_err (tube : Tube) (times : List ℝ)
    (hb : (tube.results.any fun p => p.2.firstDim ≠ times.length) = true) :
    tube.set_times times = (tube, some PyErr.valueError) := by
  unfold Tube.set_times
  split
  · rfl
  · next hcond => exact absurd hb hcond

theorem set_times_spec_ok (tube : Tube) (times : List ℝ)
    (hb : (tube.results.any fun p => p.2.firstDim ≠ times.length) = false) :
    tube.set_times times = ({ tube with times := times }, none) := by
  unfold Tube.set_times
  split
  · next hcond => rw [hb] at hcond; simp at hcond
  · rfl

theorem add_quadrature_results_spec_ok (tube : Tube) (name : String)
    (data : NpArray) (h : data.firstDim = tube.ntime) :
    tube.add_quadrature_results name data =
      Except.ok
        { tube with quadrature_results := dictUpsert name data tube.quadrature_results } := by
  simp [Tube.add_quadrature_results, h]

theorem add_axial_results_spec_ok (tube : Tube) (name : String) (data : NpArray)
    (h : data.shape = [tube.ntime, tube.nz]) :
    tube.add_axial_results name data =
      Except.ok { tube with axial_results := dictUpsert name data tube.axial_results } := by
  simp [Tube.add_axial_results, h]

theorem Tube.contractShape_headD (tube : Tube) :
    tube.contractShape.headD 0 = tube.ntime := by
  cases h : tube.abstraction <;> simp [Tube.contractShape, h]

/-- C4: `add_results` raises ValueError exactly when the data shape differs
from the abstraction-specific contract shape, and on a matching shape it
succeeds, storing the data under `name` (so that looking `name` up in the
resulting `results` dictionary returns the data). -/
theorem add_results_valueError_iff (tube : Tube) (name : String) (data : NpArray) :
    (tube.add_results name data = Except.error PyErr.valueError ↔
      data.shape ≠ tube.contractShape) ∧
    (data.shape = tube.contractShape →
      tube.add_results name data =
        Except.ok { tube with results := dictUpsert name data tube.results } ∧
      ∀ t', tube.add_results name data = Except.ok t' →
        dictLookup name t'.results = some data) := by
  by_cases h : data.shape = tube.contractShape
  · refine ⟨⟨fun hc => ?_, fun hc => absurd h hc⟩,
      fun _ => ⟨add_results_spec_ok tube name data h, ?_⟩⟩
    · rw [add_results_spec_ok tube name data h] at hc
      cases hc
    · intro t' ht'
      rw [add_results_spec_ok tube name data h] at ht'
      obtain rfl := (Except.ok.inj ht').symm
      simp [dictLookup, dictUpsert]
  · exact ⟨⟨fun _ => h, fun _ => add_results_spec_err tube name data h⟩,
      fun hc => absurd hc h⟩

/-- C4 witness: on a fresh 2x2x2 tube (3D abstraction, no times yet) a data
array of shape `(0, 2, 2, 2)` matches the contract and is stored. -/
theorem add_results_valueError_iff_witness :
    (Tube.init 1 0.5 1 2 2 2).add_results "T" ⟨[0, 2, 2, 2], []⟩ =
      Except.ok
        { Tube.init 1 0.5 1 2 2 2 with
          results := dictUpsert "T" ⟨[0, 2, 2, 2], []⟩ [] } :=
  (((add_results_valueError_iff (Tube.init 1 0.5 1 2 2 2) "T"
      ⟨[0, 2, 2, 2], []⟩).2 rfl).1)

/-- C5: `set_times` raises ValueError exactly when some stored results array
has a leading (time) dimension different from `len(times)`; on an exception the
stored times (indeed the whole tube) are unchanged, and on success the stored
times become the given times (and nothing else changes). -/
theorem set_times_valueError_iff (tube : Tube) (times : List ℝ) :
    ((tube.set_times times).2 = some PyErr.valueError ↔
      ∃ p ∈ tube.results, p.2.firstDim ≠ times.length) ∧
    ((tube.set_times times).2.isSome → (tube.set_times times).1 = tube) ∧
    ((tube.set_times times).2 = none →
      (tube.set_times times).1 = { tube with times := times }) := by
  by_cases hb : (tube.results.any fun p => p.2.firstDim ≠ times.length) = true
  · rw [set_times_spec_err tube times hb]
    refine ⟨⟨fun _ => ?_, fun _ => rfl⟩, fun _ => rfl, fun hc => (by cases hc)⟩
    obtain ⟨p, hp, hne⟩ := List.any_eq_true.1 hb
    exact ⟨p, hp, by simpa using hne⟩
  · rw [Bool.not_eq_true] at hb
    rw [set_times_spec_ok tube times hb]
    rw [List.any_eq_false] at hb
    refine ⟨⟨fun hc => (by cases hc), fun hc => ?_⟩,
      fun hs => (by simp at hs), fun _ => rfl⟩
    obtain ⟨p, hp, hne⟩ := hc
    exact absurd (by simpa using hb p hp) hne

/-- C5 witness: on a fresh tube (no stored results) `set_times` succeeds and
stores the provided times. -/
theorem set_times_valueError_iff_witness :
    ((Tube.init 1 0.5 1 2 2 2).set_times [0, 1]).1 =
      { Tube.init 1 0.5 1 2 2 2 with times := [0, 1] } :=
  (set_times_valueError_iff (Tube.init 1 0.5 1 2 2 2) [0, 1]).2.2 rfl

/-- A call through the public mutating interface of `Tube`. -/
inductive TubeOp where
  | setTimes (times : List ℝ) : TubeOp
  | addResults (name : String) (data : NpArray) : TubeOp
  | addQuadratureResults (name : String) (data : NpArray) : TubeOp
  | addAxialResults (name : String) (data : NpArray) : TubeOp

/-- Apply one interface call; `none` when the Python call raises. -/
def applyOp (tube : Tube) : TubeOp → Option Tube
  | TubeOp.setTimes times =>
      match tube.set_times times with
      | (t', none) => some t'
      | (_, some _) => none
  | TubeOp.addResults name data =>
      match tube.add_results name data with
      | Except.ok t' => some t'
      | Except.error _ => none
  | TubeOp.addQuadratureResults name data =>
      match tube.add_quadrature_results name data with
      | Except.ok t' => some t'
      | Except.error _ => none
  | TubeOp.addAxialResults name data =>
      match tube.add_axial_results name data with
      | Except.ok t' => some t'
      | Except.error _ => none

/-- Apply a sequence of interface calls, all of which must succeed. -/
def applyOps (tube : Tube) : List TubeOp → Option Tube
  | [] => some tube
  | op :: ops =>
      match applyOp tube op with
      | none => none
      | some t' => applyOps t' ops

/-- A list of reals is strictly increasing. -/
def strictlyIncreasing (l : List ℝ) : Prop := l.Chain' (· < ·)

/-- Every stored node results array has leading dimension `len(times)`. -/
def resultsTimesAligned (tube : Tube) : Prop :=
  ∀ p ∈ tube.results, p.2.firstDim = tube.times.length

theorem applyOp_resultsTimesAligned {tube t' : Tube} {op : TubeOp}
    (hinv : resultsTimesAligned tube) (h : applyOp tube op = some t') :
    resultsTimesAligned t' := by
  cases op with
  | setTimes times =>
      by_cases hb : (tube.results.any fun p => p.2.firstDim ≠ times.length) = true
      · simp only [applyOp] at h
        rw [set_times_spec_err tube times hb] at h
        simp at h
      · rw [Bool.not_eq_true] at hb
        simp only [applyOp] at h
        rw [set_times_spec_ok tube times hb] at h
        obtain rfl := Option.some.inj h
        rw [List.any_eq_false] at hb
        intro p hp
        simpa using hb p hp
  | addResults name data =>
      by_cases hs : data.shape = tube.contractShape
      · simp only [applyOp] at h
        rw [add_results_spec_ok tube name data hs] at h
        obtain rfl := Option.some.inj h
        intro p hp
        rcases List.mem_cons.1 hp with rfl | hp'
        · show data.firstDim = tube.times.length
          rw [NpArray.firstDim, hs, Tube.contractShape_headD]
          rfl
        · exact hinv p (List.mem_of_mem_filter hp')
      · simp only [applyOp] at h
        rw [add_results_spec_err tube name data hs] at h
        simp at h
  | addQuadratureResults name data =>
      by_cases hs : data.firstDim = tube.ntime
      · simp only [applyOp] at h
        rw [add_quadrature_results_spec_ok tube name data hs] at h
        obtain rfl := Option.some.inj h
        exact hinv
      · simp only [applyOp] at h
        simp [Tube.add_quadrature_results, hs] at h
  | addAxialResults name data =>
      by_cases hs : data.shape = [tube.ntime, tube.nz]
      · simp only [applyOp] at h
        rw [add_axial_results_spec_ok tube name data hs] at h
        obtain rfl := Option.some.inj h
        exact hinv
      · simp only [applyOp] at h
        simp [Tube.add_axial_results, hs] at h

theorem applyOps_resultsTimesAligned {start tube : Tube} {ops : List TubeOp}
    (hstart : resultsTimesAligned start) (h : applyOps start ops = some tube) :
    resultsTimesAligned tube := by
  induction ops generalizing start with
  | nil =>
      simp only [applyOps] at h
      obtain rfl := Option.some.inj h
      exact hstart
  | cons op ops ih =>
      simp only [applyOps] at h
      cases hop : applyOp start op with
      | none => rw [hop] at h; simp at h
      | some mid =>
          rw [hop] at h
          exact ih (applyOp_resultsTimesAligned hstart hop) h

/-- C6 (amended): along every successful call sequence from a freshly
constructed tube, each stored node results array keeps leading dimension equal
to the number of stored time samples; strict monotonicity of the times is not
an invariant maintained by the code. -/
theorem reachable_resultsTimesAligned (r t h : ℝ) (nr nt nz : ℕ)
    (ops : List TubeOp) (tube : Tube)
    (hreach : applyOps (Tube.init r t h nr nt nz) ops = some tube) :
    resultsTimesAligned tube :=
  applyOps_resultsTimesAligned (fun p hp => by simp [Tube.init] at hp) hreach

/-- C6 counterexample: from a freshly constructed tube, `set_times([1, 0])`
succeeds through the public interface, yet the stored times `[1, 0]` are not
strictly increasing. -/
theorem reachable_times_not_strictlyIncreasing :
    applyOps (Tube.init 1 0.5 1 2 2 2) [TubeOp.setTimes [1, 0]] =
      some { Tube.init 1 0.5 1 2 2 2 with times := [1, 0] } ∧
    ¬ strictlyIncreasing [(1 : ℝ), 0] := by
  refine ⟨rfl, fun hc => ?_⟩
  rw [strictlyIncreasing, List.chain'_cons] at hc
  exact absurd hc.1 (by norm_num)

/-- C6 witness: the invariant instantiated along a concrete successful call
sequence that stores one results array after setting two time samples. -/
theorem reachable_resultsTimesAligned_witness :
    NpArray.firstDim ⟨[2, 2, 2, 2], []⟩ =
      ({ Tube.init 1 0.5 1 2 2 2 with
          times := [0, 1],
          results := dictUpsert "T" ⟨[2, 2, 2, 2], []⟩ [] } : Tube).times.length := by
  have h := reachable_resultsTimesAligned 1 0.5 1 2 2 2
    [TubeOp.setTimes [0, 1], TubeOp.addResults "T" ⟨[2, 2, 2, 2], []⟩]
    { Tube.init 1 0.5 1 2 2 2 with
        times := [0, 1],
        results := dictUpsert "T" ⟨[2, 2, 2, 2], []⟩ [] } rfl
  exact h ("T", ⟨[2, 2, 2, 2], []⟩) (by simp [dictUpsert])

/-- A Python value as compared by `!=` in shape checks: an int or a tuple of
ints (numpy `.shape` values are tuples of ints).  The literal `(nz,)` is a
one-element tuple while the parenthesised literal `(nz)` is just the int
`nz`, a value of a different type, never equal to any tuple. -/
inductive PyVal where
  | int : ℤ → PyVal
  | tuple : List ℤ → PyVal
  deriving DecidableEq

/-- numpy `.shape` of a 1-d array, as a Python tuple value. -/
def npShapeVal (a : List ℝ) : PyVal := PyVal.tuple [(a.length : ℤ)]

/-- The object state of `FilmCoefficientConvectiveBC`. -/
structure FilmCoefficientConvectiveBC where
  r : ℝ
  h : ℝ
  nz : ℕ
  fluid_T : List ℝ
  film : List ℝ

/-- `FilmCoefficientConvectiveBC.__init__`: the shape check is
`fluid_T.shape != (nz,) or film.shape != (nz)` — the first comparison is
against the tuple `(nz,)` but the second is against the plain int `(nz)`. -/
def filmCoefficientConvectiveBC_init (radius height : ℝ) (nz : ℕ)
    (fluid_T film : List ℝ) : Except PyErr FilmCoefficientConvectiveBC :=
  if npShapeVal fluid_T ≠ PyVal.tuple [(nz : ℤ)] ∨
      npShapeVal film ≠ PyVal.int (nz : ℤ) then
    Except.error PyErr.valueError
  else
    Except.ok ⟨radius, height, nz, fluid_T, film⟩

/-- C9: the film/fluid shape check of `FilmCoefficientConvectiveBC.__init__`
compares the tuple `film.shape` against the int `nz`, which can never be
equal, so the constructor raises ValueError on every input and no
`FilmCoefficientConvectiveBC` object is ever constructed. -/
theorem filmCoefficientConvectiveBC_init_always_raises (radius height : ℝ)
    (nz : ℕ) (fluid_T film : List ℝ) :
    filmCoefficientConvectiveBC_init radius height nz fluid_T film =
      Except.error PyErr.valueError ∧
    ∀ bc, filmCoefficientConvectiveBC_init radius height nz fluid_T film ≠
      Except.ok bc := by
  have hcond : npShapeVal film ≠ PyVal.int (nz : ℤ) := by
    simp [npShapeVal]
  constructor
  · simp [filmCoefficientConvectiveBC_init, hcond]
  · intro bc hc
    simp [filmCoefficientConvectiveBC_init, hcond] at hc

/-- An argument to the interpolation helper closure: a Python scalar or a
numpy array (1-d, as the BC point-evaluation methods use it). -/
inductive PyData where
  | scalar : ℝ → PyData
  | array : List ℝ → PyData

/-- `np.isscalar` on an interpolation argument. -/
def PyData.isScalar : PyData → Bool
  | PyData.scalar _ => true
  | PyData.array _ => false

/-- The float held by a scalar argument (unused on arrays). -/
def PyData.scalarVal : PyData → ℝ
  | PyData.scalar x => x
  | PyData.array l => l.getD 0 0

/-- `shapes[0]` in `_make_ifn`: the shape of the first non-scalar argument
(0 when every argument is a scalar). -/
def firstArrayLength : List PyData → ℕ
  | [] => 0
  | PyData.array l :: _ => l.length
  | PyData.scalar _ :: rest => firstArrayLength rest

/-- `_vector_interpolate(base, data)`: allocate a result with the shape of
`data[0]` and fill entry `ind` with `base([d[ind] for d in data])`. -/
def _vector_interpolate (base : List ℝ → ℝ) (data : List (List ℝ)) : List ℝ :=
  match data with
  | [] => []
  | d :: _ => (List.range d.length).map
      (fun i => base (data.map (fun a => a.getD i 0)))

/-- The closure `ifn` returned by `_make_ifn(base)`, applied to `mdata`.
If every argument is a scalar it calls `base` directly; if only some are
scalars it broadcasts the scalars to the first array shape (`ndata`) and
interpolates pointwise; if no argument is a scalar the Python code evaluates
`_vector_interpolate(base, ndata)` where the name `ndata` was never assigned
on that path, so the call raises NameError. -/
def _make_ifn (base : List ℝ → ℝ) (mdata : List PyData) : Except PyErr PyData :=
  if mdata.all PyData.isScalar then
    Except.ok (PyData.scalar (base (mdata.map PyData.scalarVal)))
  else if mdata.any PyData.isScalar then
    let shape := firstArrayLength mdata
    let ndata := mdata.map (fun d => match d with
      | PyData.scalar x => List.replicate shape x
      | PyData.array l => l)
    Except.ok (PyData.array (_vector_interpolate base ndata))
  else
    Except.error PyErr.nameError

/-- `HeatFluxBC.flux(t, theta, z)`: evaluate the interpolation closure built
by `_generate_ifn` on the argument list `[t, theta, z]`; `base` stands for the
scipy `RegularGridInterpolator` built from the stored flux data. -/
def HeatFluxBC_flux (base : List ℝ → ℝ) (t theta z : PyData) :
    Except PyErr PyData :=
  _make_ifn base [t, theta, z]

/-- C10: when no entry of a (nonempty) argument list is a scalar, the closure
built by `_make_ifn` raises NameError (the branch references the undefined
variable `ndata`); in particular `HeatFluxBC.flux` never returns a value when
all three coordinate arguments are arrays. -/
theorem make_ifn_all_arrays_nameError (base : List ℝ → ℝ) :
    (∀ mdata : List PyData, mdata ≠ [] →
      (∀ d ∈ mdata, d.isScalar = false) →
      _make_ifn base mdata = Except.error PyErr.nameError) ∧
    (∀ t theta z : List ℝ,
      HeatFluxBC_flux base (PyData.array t) (PyData.array theta)
          (PyData.array z) = Except.error PyErr.nameError) := by
  constructor
  · intro mdata hne hall
    have h1 : mdata.all PyData.isScalar = false := by
      cases mdata with
      | nil => exact absurd rfl hne
      | cons d rest => simp [List.all_cons, hall d (List.mem_cons_self d rest)]
    have h2 : mdata.any PyData.isScalar = false := by
      rw [List.any_eq_false]
      intro d hd
      simp [hall d hd]
    simp [_make_ifn, h1, h2]
  · intro t theta z
    simp [HeatFluxBC_flux, _make_ifn, PyData.isScalar]

/-- C10 witness: a sum-interpolator closure applied to three singleton array
arguments raises NameError. -/
theorem make_ifn_all_arrays_nameError_witness :
    HeatFluxBC_flux List.sum (PyData.array [1]) (PyData.array [2])
        (PyData.array [3]) = Except.error PyErr.nameError :=
  (make_ifn_all_arrays_nameError List.sum).2 [1] [2] [3]

/-- The damage-model variants of `srlife.damage` exercised by
`test_ceramic_damage_CARES_cyclic.py`. -/
inductive DamageModelKind where
  | PIAModel : DamageModelKind
  | CSEModelGriffithFlaw : DamageModelKind
  | SMMModelGriffithFlaw : DamageModelKind
  | SMMModelSemiCircularCrack : DamageModelKind
  deriving DecidableEq

/-- The damage engine's distinguishable error for an evaluation a model
variant has no kernel for. -/
inductive DamageError where
  | unsupportedEvaluation : DamageError
  deriving DecidableEq

/-- Arguments of `calculate_volume_flaw_element_log_reliability`: time grid,
per-time per-element stress components, per-time per-element temperatures,
element volumes, the material's volume Weibull parameters, and the service
life `target_time`. -/
structure VolumeFlawArgs where
  time : List ℝ
  stress : List (List (List ℝ))
  temperatures : List (List ℝ)
  volumes : List ℝ
  m_v : ℝ
  s0_v : ℝ
  target_time : ℝ

/-- Modelled from the spec: the damage module `srlife.damage` is not among the
sources here (only its test is); spec section 4.3 and section 9 say each
damage-model variant declares which of surface/volume evaluation it supports,
and the SMM semicircular-crack variant supports surface evaluation only. -/
def supportsVolumeFlaw : DamageModelKind → Bool
  | DamageModelKind.PIAModel => true
  | DamageModelKind.CSEModelGriffithFlaw => true
  | DamageModelKind.SMMModelGriffithFlaw => true
  | DamageModelKind.SMMModelSemiCircularCrack => false

/-- Modelled from the spec: the PIA-style volume risk of one stress state,
`sum_i max(sigma_i, 0)^m / s0^m` (spec section 4.3). -/
noncomputable def piaRisk (m s0 : ℝ) (stress : List ℝ) : ℝ :=
  (stress.map (fun s => max s 0 ^ m / s0 ^ m)).sum

/-- Modelled from the spec: per-element volume-flaw log-reliability for the
variants that support it, `log R_e = -(V_e) * (time-summed risk)` (spec
sections 4.3 and 8; the exact time-integration convention of the missing
module is immaterial to the claims below). -/
noncomputable def volumeFlawKernel (args : VolumeFlawArgs) : List ℝ :=
  (List.range args.volumes.length).map (fun e =>
    -(args.volumes.getD e 0) *
      (args.stress.map (fun st => piaRisk args.m_v args.s0_v (st.getD e []))).sum)

/-- Modelled from the spec: `calculate_volume_flaw_element_log_reliability`
dispatched on the model variant; a variant with no volume-flaw kernel raises
`UnsupportedEvaluation` instead of returning a value (spec sections 4.3, 7
and 8). -/
noncomputable def calculate_volume_flaw_element_log_reliability
    (kind : DamageModelKind) (args : VolumeFlawArgs) :
    Except DamageError (List ℝ) :=
  if supportsVolumeFlaw kind then Except.ok (volumeFlawKernel args)
  else Except.error DamageError.unsupportedEvaluation

/-- C1: on the semicircular-crack SMM model the volume-flaw evaluation raises
`UnsupportedEvaluation` for every input, and in particular never returns a
value (no `None`, no numeric zero) for any input. -/
theorem smm_semicircular_volume_unsupported (args : VolumeFlawArgs) :
    calculate_volume_flaw_element_log_reliability
        DamageModelKind.SMMModelSemiCircularCrack args =
      Except.error DamageError.unsupportedEvaluation ∧
    ∀ out, calculate_volume_flaw_element_log_reliability
        DamageModelKind.SMMModelSemiCircularCrack args ≠ Except.ok out := by
  constructor
  · rfl
  · intro out hc
    simp [calculate_volume_flaw_element_log_reliability, supportsVolumeFlaw] at hc

/-- `np.linspace(a, b, n)` entry `i` (the code always uses `n >= 2`). -/
noncomputable def linspace (a b : ℝ) (n : ℕ) (i : ℕ) : ℝ :=
  a + (b - a) * i / ((n : ℝ) - 1)

/-- `np.diff(np.linspace(a, b, n))` entry `j`. -/
noncomputable def linspaceDiff (a b : ℝ) (n : ℕ) (j : ℕ) : ℝ :=
  linspace a b n (j + 1) - linspace a b n j

theorem linspaceDiff_eq (a b : ℝ) (n j : ℕ) :
    linspaceDiff a b n j = (b - a) / ((n : ℝ) - 1) := by
  unfold linspaceDiff linspace
  push_cast
  ring

/-- Squared Euclidean length of a 3-vector. -/
def normSq (v : ℝ × ℝ × ℝ) : ℝ := v.1 ^ 2 + v.2.1 ^ 2 + v.2.2 ^ 2

/-- numpy negation of a 3-vector. -/
def neg3 (v : ℝ × ℝ × ℝ) : ℝ × ℝ × ℝ := (-v.1, -v.2.1, -v.2.2)

/-- `Tube.surface_elements`, 1D branch, surface mask: entries 0 and `-1` of
the length `nr - 1` boolean array are set, the rest stay `False`. -/
def surface1d (tube : Tube) (i : ℕ) : Bool :=
  i = 0 || i = tube.nr - 2

/-- `Tube.surface_elements`, 1D branch, normals: `normals[0] = -n` and
`normals[-1] = n` with `n = (1, 0, 0)` on a zero array of `nr - 1` rows (the
later assignment to row `nr - 2` wins when `nr = 2`); interior rows remain
zero vectors. -/
def normals1d (tube : Tube) (i : ℕ) : ℝ × ℝ × ℝ :=
  if i = tube.nr - 2 then (1, 0, 0)
  else if i = 0 then (-1, 0, 0)
  else (0, 0, 0)

/-- The rows `ns` of the 2D/3D branches of `Tube.surface_elements`:
`t = np.linspace(0, 2*pi, nt)`, row `j` is `(cos t_j, sin t_j, 0)`. -/
noncomputable def nsRow (tube : Tube) (j : ℕ) : ℝ × ℝ × ℝ :=
  (Real.cos (linspace 0 (2 * π) tube.nt j),
   Real.sin (linspace 0 (2 * π) tube.nt j), 0)

/-- `Tube.surface_elements`, 2D branch, surface mask `np.outer(r, theta)`:
radial rows 0 and `nr - 2` are surface, every theta position. -/
def surface2d (tube : Tube) (i j : ℕ) : Bool :=
  i = 0 || i = tube.nr - 2

/-- `Tube.surface_elements`, 2D branch, normals on the `(nr - 1, nt, 3)`
zero array: `normals[0] = -ns` and `normals[-1] = ns`. -/
noncomputable def normals2d (tube : Tube) (i j : ℕ) : ℝ × ℝ × ℝ :=
  if i = tube.nr - 2 then nsRow tube j
  else if i = 0 then neg3 (nsRow tube j)
  else (0, 0, 0)

/-- `Tube.surface_elements`, 3D branch, surface mask
`np.outer(np.outer(r, theta), z)`. -/
def surface3d (tube : Tube) (i j k : ℕ) : Bool :=
  i = 0 || i = tube.nr - 2

/-- `Tube.surface_elements`, 3D branch, normals on the
`(nr - 1, nt, nz - 1, 3)` zero array: `normals[0] = -ns[:, None]` and
`normals[-1] = ns[:, None]` (broadcast along the axial index). -/
noncomputable def normals3d (tube : Tube) (i j k : ℕ) : ℝ × ℝ × ℝ :=
  if i = tube.nr - 2 then nsRow tube j
  else if i = 0 then neg3 (nsRow tube j)
  else (0, 0, 0)

theorem normSq_nsRow (tube : Tube) (j : ℕ) : normSq (nsRow tube j) = 1 := by
  simp only [normSq, nsRow]
  have h := Real.sin_sq_add_cos_sq (linspace 0 (2 * π) tube.nt j)
  nlinarith [h]

theorem normSq_neg3 (v : ℝ × ℝ × ℝ) : normSq (neg3 v) = normSq v := by
  simp only [normSq, neg3]
  ring

/-- C2 (amended): in every abstraction, each normal attached to an element the
surface mask marks as a surface element has unit Euclidean length (squared
norm 1); the normals stored at interior elements are zero vectors, so not
every entry of the normals array is unit length. -/
theorem surface_normals_unitSq (tube : Tube) :
    (∀ i, surface1d tube i = true → normSq (normals1d tube i) = 1) ∧
    (∀ i j, surface2d tube i j = true → normSq (normals2d tube i j) = 1) ∧
    (∀ i j k, surface3d tube i j k = true → normSq (normals3d tube i j k) = 1) := by
  have h1d : ∀ i, surface1d tube i = true → normSq (normals1d tube i) = 1 := by
    intro i hi
    unfold normals1d
    split
    · norm_num [normSq]
    · next hne =>
        rcases (by simpa [surface1d] using hi : i = 0 ∨ i = tube.nr - 2) with h0 | h2
        · rw [if_pos h0]
          norm_num [normSq]
        · exact absurd h2 hne
  have h2d : ∀ i j, surface2d tube i j = true → normSq (normals2d tube i j) = 1 := by
    intro i j hi
    unfold normals2d
    split
    · exact normSq_nsRow tube j
    · next hne =>
        rcases (by simpa [surface2d] using hi : i = 0 ∨ i = tube.nr - 2) with h0 | h2
        · rw [if_pos h0, normSq_neg3]
          exact normSq_nsRow tube j
        · exact absurd h2 hne
  refine ⟨h1d, h2d, ?_⟩
  intro i j k hi
  unfold normals3d
  split
  · exact normSq_nsRow tube j
  · next hne =>
      rcases (by simpa [surface3d] using hi : i = 0 ∨ i = tube.nr - 2) with h0 | h2
      · rw [if_pos h0, normSq_neg3]
        exact normSq_nsRow tube j
      · exact absurd h2 hne

/-- C2 witness: on a 2x2x2 tube the innermost element is a surface element and
its 1D normal has unit squared length. -/
theorem surface_normals_unitSq_witness :
    normSq (normals1d (Tube.init 2 1 1 2 2 2) 0) = 1 :=
  (surface_normals_unitSq (Tube.init 2 1 1 2 2 2)).1 0 rfl

/-- C2 counterexample: a 1D tube with `nr = 4` (and `nt = nz = 2`) has the
interior element 1 (a valid row of the `nr - 1 = 3` normals array), whose
stored normal is the zero vector, not a unit vector. -/
theorem surface_normals_unitSq_cex :
    ({ Tube.init 2 1 1 4 2 2 with abstraction := Abstraction.oneD } : Tube).nr = 4 ∧
    1 < 4 - 1 ∧
    normals1d { Tube.init 2 1 1 4 2 2 with abstraction := Abstraction.oneD } 1 =
      (0, 0, 0) ∧
    normSq ((0 : ℝ), (0 : ℝ), (0 : ℝ)) ≠ 1 := by
  refine ⟨rfl, by norm_num, rfl, ?_⟩
  norm_num [normSq]

/-- `np.concatenate` along the first axis: numpy raises ValueError when an
argument is zero-dimensional (as a numpy scalar is); otherwise the leading
dimensions add and the data lists join. -/
def npConcatenate (parts : List NpArray) : Except PyErr NpArray :=
  match parts with
  | [] => Except.error PyErr.valueError
  | p :: ps =>
      if (p :: ps).any (fun q => q.shape = []) then Except.error PyErr.valueError
      else
        Except.ok
          ⟨((p :: ps).map (fun q => q.shape.headD 0)).sum :: p.shape.tail,
            ((p :: ps).map NpArray.data).flatten⟩

/-- `a.flatten()`: the shape collapses to the total number of entries. -/
def npFlatten (a : NpArray) : NpArray := ⟨[a.shape.prod], a.data⟩

/-- Integer indexing `a[i]` of a 1-d array: a numpy scalar, i.e. a
zero-dimensional array. -/
def npIndex1 (a : NpArray) (i : ℕ) : NpArray := ⟨[], [a.data.getD i 0]⟩

/-- `Tube._surfacearea1d`: build `surface_area = np.zeros(nr - 1)`, assign
entries 0 and `-1`, then evaluate
`np.concatenate((surface_area[0], surface_area[-1]))` — whose two arguments
are numpy scalars — and flatten. -/
noncomputable def _surfacearea1d (tube : Tube) : Except PyErr NpArray :=
  let r := fun i => linspace (tube.r - tube.t) tube.r tube.nr i
  let sa0 : NpArray := ⟨[tube.nr - 1], List.replicate (tube.nr - 1) 0⟩
  let sa1 : NpArray := ⟨sa0.shape, sa0.data.set 0 (2 * π * r 0 * tube.h)⟩
  let sa2 : NpArray :=
    ⟨sa1.shape, sa1.data.set (tube.nr - 2) (2 * π * r (tube.nr - 1) * tube.h)⟩
  (npConcatenate [npIndex1 sa2 0, npIndex1 sa2 (tube.nr - 2)]).map npFlatten

/-- `Tube._surfacearea2d`: rows 0 and `-1` of the `(nr - 1, nt)` array are
assigned `theta * r * h`; `np.concatenate((surface_area[0, :],
surface_area[-1, :]))` joins the two 1-d rows, then flattens. -/
noncomputable def _surfacearea2d (tube : Tube) : Except PyErr NpArray :=
  let r := fun i => linspace (tube.r - tube.t) tube.r tube.nr i
  let theta := fun j => linspaceDiff 0 (2 * π) (tube.nt + 1) j
  let row0 : NpArray :=
    ⟨[tube.nt], (List.range tube.nt).map (fun j => theta j * r 0 * tube.h)⟩
  let rowL : NpArray :=
    ⟨[tube.nt],
      (List.range tube.nt).map (fun j => theta j * r (tube.nr - 1) * tube.h)⟩
  (npConcatenate [row0, rowL]).map npFlatten

/-- `Tube._surfacearea3d`: faces 0 and `-1` of the `(nr - 1, nz - 1, nt)`
array, each of shape `(nz - 1, nt)` with entries
`heights_k * theta_j * r`; their concatenation is flattened. -/
noncomputable def _surfacearea3d (tube : Tube) : Except PyErr NpArray :=
  let r := fun i => linspace (tube.r - tube.t) tube.r tube.nr i
  let theta := fun j => linspaceDiff 0 (2 * π) (tube.nt + 1) j
  let heights := fun k => linspaceDiff 0 tube.h tube.nz k
  let face0 : NpArray :=
    ⟨[tube.nz - 1, tube.nt],
      ((List.range (tube.nz - 1)).map (fun k =>
        (List.range tube.nt).map (fun j => heights k * theta j * r 0))).flatten⟩
  let faceL : NpArray :=
    ⟨[tube.nz - 1, tube.nt],
      ((List.range (tube.nz - 1)).map (fun k =>
        (List.range tube.nt).map
          (fun j => heights k * theta j * r (tube.nr - 1)))).flatten⟩
  (npConcatenate [face0, faceL]).map npFlatten

/-- `Tube.element_surface_areas`: dispatch on the abstraction. -/
noncomputable def element_surface_areas (tube : Tube) : Except PyErr NpArray :=
  match tube.abstraction with
  | Abstraction.oneD => _surfacearea1d tube
  | Abstraction.twoD => _surfacearea2d tube
  | Abstraction.threeD => _surfacearea3d tube

/-- C3: on a 1D-abstracted tube with admissible geometry
(`outer_radius = 1 >= thickness = 0.5 >= 0`, `height = 1 >= 0`,
`nr = nt = nz = 2`), `element_surface_areas` raises ValueError instead of
returning the per-element area array: `_surfacearea1d` concatenates the two
zero-dimensional numpy scalars `surface_area[0]` and `surface_area[-1]`. -/
theorem element_surface_areas_1d_raises :
    element_surface_areas
        { Tube.init 1 0.5 1 2 2 2 with abstraction := Abstraction.oneD } =
      Except.error PyErr.valueError := rfl

/-- The radial grid `r = np.linspace(r - t, r, nr)` shared by the volume
calculators. -/
noncomputable def rgrid (tube : Tube) (i : ℕ) : ℝ :=
  linspace (tube.r - tube.t) tube.r tube.nr i

/-- `Tube._volume1d` entry `i`: `pi * (r_{i+1}^2 - r_i^2) * h`. -/
noncomputable def _volume1d (tube : Tube) (i : ℕ) : ℝ :=
  π * (rgrid tube (i + 1) ^ 2 - rgrid tube i ^ 2) * tube.h

/-- The `a = np.outer(2 r[:-1], sin(theta/2))` entries of `_volume2d` and
`_volume3d`. -/
noncomputable def volA (tube : Tube) (i j : ℕ) : ℝ :=
  2 * rgrid tube i * Real.sin (linspaceDiff 0 (2 * π) (tube.nt + 1) j / 2)

/-- The `b = np.outer(2 r[1:], sin(theta/2))` entries. -/
noncomputable def volB (tube : Tube) (i j : ℕ) : ℝ :=
  2 * rgrid tube (i + 1) * Real.sin (linspaceDiff 0 (2 * π) (tube.nt + 1) j / 2)

/-- The `edge = r[1:] - r[:-1]` entries. -/
noncomputable def volEdge (tube : Tube) (i : ℕ) : ℝ :=
  rgrid tube (i + 1) - rgrid tube i

/-- The argument of the square root in `_volume2d`/`_volume3d`:
`edge^2 - ((b - a)/2)^2`. -/
noncomputable def volHArg (tube : Tube) (i j : ℕ) : ℝ :=
  volEdge tube i ^ 2 - ((volB tube i j - volA tube i j) / 2) ^ 2

/-- The trapezoid height `h = sqrt(edge^2 - ((b - a)/2)^2)`. -/
noncomputable def volHeight (tube : Tube) (i j : ℕ) : ℝ :=
  Real.sqrt (volHArg tube i j)

/-- The trapezoid area `base = 0.5 (a + b) h`. -/
noncomputable def volBase (tube : Tube) (i j : ℕ) : ℝ :=
  0.5 * (volA tube i j + volB tube i j) * volHeight tube i j

/-- `Tube._volume2d` entry `(i, j)`: `base * h` (the tube height). -/
noncomputable def _volume2d (tube : Tube) (i j : ℕ) : ℝ :=
  volBase tube i j * tube.h

/-- `Tube._volume3d` entry `(k, i, j)` of `np.einsum("k,ij", heights, base)`:
`heights_k * base_{ij}` with `heights = np.diff(np.linspace(0, h, nz))`. -/
noncomputable def _volume3d (tube : Tube) (k i j : ℕ) : ℝ :=
  linspaceDiff 0 tube.h tube.nz k * volBase tube i j

/-- C7: for admissible geometry (`0 <= thickness <= outer_radius`,
`height >= 0`, `nr, nt, nz >= 2`) every element volume returned by
`element_volumes` is non-negative in each of the 1D, 2D and 3D abstractions,
and the argument of the square root in the 2D/3D formulas is never
negative. -/
theorem element_volumes_nonneg (tube : Tube) (ht0 : 0 ≤ tube.t)
    (htr : tube.t ≤ tube.r) (hh : 0 ≤ tube.h) (hnr : 2 ≤ tube.nr)
    (hnt : 2 ≤ tube.nt) (hnz : 2 ≤ tube.nz) :
    (∀ i, 0 ≤ _volume1d tube i) ∧
    (∀ i j, 0 ≤ volHArg tube i j ∧ 0 ≤ _volume2d tube i j) ∧
    (∀ k i j, 0 ≤ _volume3d tube k i j) := by
  have hnr' : (1 : ℝ) ≤ (tube.nr : ℝ) - 1 := by
    have : (2 : ℝ) ≤ (tube.nr : ℝ) := by exact_mod_cast hnr
    linarith
  have hnrpos : (0 : ℝ) < (tube.nr : ℝ) - 1 := by linarith
  have hr0 : ∀ i : ℕ, 0 ≤ rgrid tube i := by
    intro i
    unfold rgrid linspace
    have h1 : (0 : ℝ) ≤ tube.r - (tube.r - tube.t) := by linarith
    have h2 : (0 : ℝ) ≤ (tube.r - (tube.r - tube.t)) * i / ((tube.nr : ℝ) - 1) :=
      div_nonneg (mul_nonneg h1 (Nat.cast_nonneg i)) hnrpos.le
    linarith
  have hedge : ∀ i : ℕ,
      volEdge tube i = (tube.r - (tube.r - tube.t)) / ((tube.nr : ℝ) - 1) := by
    intro i
    unfold volEdge rgrid linspace
    push_cast
    ring
  have hedge0 : ∀ i : ℕ, 0 ≤ volEdge tube i := by
    intro i
    rw [hedge i]
    exact div_nonneg (by linarith) hnrpos.le
  have hmono : ∀ i : ℕ, rgrid tube i ≤ rgrid tube (i + 1) := by
    intro i
    have := hedge0 i
    unfold volEdge at this
    linarith
  have hsin : ∀ j : ℕ,
      0 ≤ Real.sin (linspaceDiff 0 (2 * π) (tube.nt + 1) j / 2) := by
    intro j
    rw [linspaceDiff_eq]
    have hnt' : (1 : ℝ) ≤ (tube.nt : ℝ) := by
      have : (2 : ℝ) ≤ (tube.nt : ℝ) := by exact_mod_cast hnt
      linarith
    have harg : (2 * π - 0) / (((tube.nt : ℕ) + 1 : ℕ) - 1 : ℝ) / 2 =
        π / (tube.nt : ℝ) := by
      push_cast
      ring
    rw [harg]
    apply Real.sin_nonneg_of_nonneg_of_le_pi
    · exact div_nonneg Real.pi_pos.le (by linarith)
    · calc π / (tube.nt : ℝ) ≤ π / 1 := by
            apply div_le_div_of_nonneg_left Real.pi_pos.le (by norm_num) hnt'
          _ = π := by ring
  have hA : ∀ i j, 0 ≤ volA tube i j := fun i j =>
    mul_nonneg (mul_nonneg (by norm_num) (hr0 i)) (hsin j)
  have hB : ∀ i j, 0 ≤ volB tube i j := fun i j =>
    mul_nonneg (mul_nonneg (by norm_num) (hr0 (i + 1))) (hsin j)
  have hArg : ∀ i j, 0 ≤ volHArg tube i j := by
    intro i j
    have hba : volB tube i j - volA tube i j =
        2 * volEdge tube i *
          Real.sin (linspaceDiff 0 (2 * π) (tube.nt + 1) j / 2) := by
      unfold volB volA volEdge
      ring
    unfold volHArg
    rw [hba]
    have hs1 :
        Real.sin (linspaceDiff 0 (2 * π) (tube.nt + 1) j / 2) ^ 2 ≤ 1 :=
      Real.sin_sq_le_one _
    nlinarith [sq_nonneg (volEdge tube i), sq_nonneg
      (Real.sin (linspaceDiff 0 (2 * π) (tube.nt + 1) j / 2))]
  have hBase : ∀ i j, 0 ≤ volBase tube i j := by
    intro i j
    unfold volBase
    exact mul_nonneg
      (mul_nonneg (by norm_num) (by linarith [hA i j, hB i j]))
      (Real.sqrt_nonneg _)
  refine ⟨?_, fun i j => ⟨hArg i j, ?_⟩, ?_⟩
  · intro i
    unfold _volume1d
    have hsq : rgrid tube i ^ 2 ≤ rgrid tube (i + 1) ^ 2 :=
      pow_le_pow_left₀ (hr0 i) (hmono i) 2
    exact mul_nonneg (mul_nonneg Real.pi_pos.le (by linarith)) hh
  · exact mul_nonneg (hBase i j) hh
  · intro k i j
    unfold _volume3d
    have hz : 0 ≤ linspaceDiff 0 tube.h tube.nz k := by
      rw [linspaceDiff_eq]
      have : (2 : ℝ) ≤ (tube.nz : ℝ) := by exact_mod_cast hnz
      exact div_nonneg (by linarith) (by linarith)
    exact mul_nonneg hz (hBase i j)

/-- C7 witness: on the concrete tube with outer radius 2, thickness 1,
height 1 and a 2x2x2 grid, the sole 1D element volume is non-negative. -/
theorem element_volumes_nonneg_witness :
    0 ≤ _volume1d (Tube.init 2 1 1 2 2 2) 0 :=
  (element_volumes_nonneg (Tube.init 2 1 1 2 2 2) (by norm_num [Tube.init])
    (by norm_num [Tube.init]) (by norm_num [Tube.init]) (by norm_num [Tube.init])
    (by norm_num [Tube.init]) (by norm_num [Tube.init])).1 0
